import Mathlib

/-!
Shallow embedding of `cms/wizards/views.py` (the wizard controller of the
repository): `WizardViewMixin` and `WizardCreateView`.  Pure data is embedded
as Lean structures; every Python operation that can raise is embedded as a
function into `Except WizErr _`; the mutation of controller-local attributes
(`self.page_pk`, `self.form_list[step] = ...`) is embedded as explicit state
passing on `WizardState`.  Collaborators that are code of the repository but
outside the provided source (the wizard pool, the step-2 form factory, the
`Page` model) and external framework pieces (the ORM lookup, the transaction
decorator, language detection) are modelled from the spec, each marked in its
doc comment.
-/

namespace CMSWizards

/-- Modelled from the spec: the content-container model (`cms.models.Page`,
not under the provided source) — a read-only entity resolved by an integer
primary key. -/
structure Page where
  pk : Nat
deriving DecidableEq, Repr

/-- A created domain object (the result of the step-two form's save),
identified abstractly. -/
abbrev Obj := Nat

/-- The persistence store for created objects, threaded through `save` and the
transaction wrapper. -/
abbrev DB := List Obj

/-- The ways the Python code can raise while the controller runs. -/
inductive WizErr where
  /-- TypeError, e.g. subscripting the `None` returned by
  `get_cleaned_data_for_step`. -/
  | typeError
  /-- AttributeError, e.g. `None.get(...)` or `self.steps` not yet set. -/
  | attrError
  /-- KeyError, e.g. `data['entry']` with the key absent. -/
  | keyError
  /-- `wizard_pool.get_entry` failure on an unknown identifier. -/
  | unknownEntry
  /-- IndexError, e.g. `form_list[1]` on a too-short list. -/
  | indexError
  /-- a persistence failure raised by the step-two form's `save()`. -/
  | saveError
deriving DecidableEq, Repr

/-- Form classes the controller can bind.  `wizardStep1Form`,
`placeholderForm` (plain `django.forms.Form`) and `wizardStep2BaseForm` are the
statically known classes imported by `views.py`; `entryForm` is an
entry-registered class; `factoryForm` is the hybrid type synthesized by
`step2_form_factory`. -/
inductive FormClass where
  | wizardStep1Form : FormClass
  | placeholderForm : FormClass
  | wizardStep2BaseForm : FormClass
  | entryForm : String → FormClass
  | factoryForm : FormClass → FormClass → FormClass
deriving DecidableEq, Repr

/-- Modelled from the spec: an Entry Descriptor of the Entry Registry
(`cms.wizards.wizard_pool`, not under the provided source) — a bundle of a
form class, a template name and a success-URL function, immutable and looked
up by identifier. -/
structure Entry where
  form : FormClass
  template_name : String
  success_url : Obj → String → String

/-- The cleaned data of step one's form, as a dictionary with an optional
`entry` key (the selected entry identifier; `none` means the key is absent)
and an optional `page` key (the origin container; `none` means absent or
`None`). -/
structure CleanedData where
  entry : Option String
  page : Option Page
deriving Repr

/-- The parts of the HTTP request the controller reads: the `page` query
parameter (`request.GET.get('page')`), the acting user, and the language
that `get_language_from_request` would derive. -/
structure Request where
  get_page : Option String
  user : String
  lang : String

/-- A context-dictionary value: framework-provided strings or the wizard
entry installed by `get_context_data`. -/
inductive CtxVal where
  | str : String → CtxVal
  | entry : Entry → CtxVal

/-- The controller state visible to `WizardCreateView`: the request, the
page table, the entry registry, the session wizard's current step and the
cleaned data it holds for step `'0'`, the (mutable) `form_list` mapping,
the controller-local `page_pk`, the language code fixed at dispatch, and
the initial-data and context dictionaries supplied by the base framework
classes. -/
structure WizardState where
  request : Request
  pages : List Page
  registry : String → Option Entry
  current_step : Option String
  cleaned0 : Option CleanedData
  form_list : List (String × FormClass)
  page_pk : Option String
  language_code : String
  base_initial : String → List (String × Option String)
  base_context : List (String × CtxVal)

/-- The keyword arguments every constructed form receives
(`wizard_language` from `WizardViewMixin.get_form_kwargs`, `wizard_user`
and `wizard_page` from `WizardCreateView.get_form_kwargs`). -/
structure FormKwargs where
  wizard_language : String
  wizard_user : String
  wizard_page : Option Page
deriving DecidableEq, Repr

/-- The instantiated form produced by the base `get_form`: the resolved
class together with the kwargs and initial data it is constructed with. -/
structure BoundForm where
  form_class : FormClass
  kwargs : FormKwargs
  initial : List (String × Option String)

/-- A validated form instance as `done` sees it: its `save()` either
persists a new object into the store or raises. -/
structure FormInstance where
  save : DB → Except WizErr (DB × Obj)

/-- The terminal response returned by `done`: a template name and its
context dictionary. -/
structure DoneResponse where
  template : String
  context : List (String × String)
deriving DecidableEq, Repr

/-- Python `a or b` on an optional string: `a` unless it is `None` or the
empty (falsy) string. -/
def pyOrStr : Option String → Option String → Option String
  | some v, b => if v = "" then b else some v
  | none, b => b

/-- Python dict assignment `d[k] = v`: overwrite in place if the key exists,
append otherwise. -/
def setKey {α : Type} : List (String × α) → String → α → List (String × α)
  | [], k, v => [(k, v)]
  | (k2, v2) :: rest, k, v =>
      if k2 = k then (k, v) :: rest else (k2, v2) :: setKey rest k v

/-- Python truthiness of the optional `data` dict: `None` and the empty dict
are falsy. -/
def dataTruthy : Option (List (String × String)) → Bool
  | none => false
  | some l => !l.isEmpty

/-- `"{0}-page".format(step)`. -/
def page_key (step : String) : String := step ++ "-page"

/-- Modelled from the spec: `step2_form_factory` (`cms.wizards.forms`, not
under the provided source) — a pure function that, given the base mixin and
an entry-specific form class, produces a fresh concrete hybrid form type for
step two. -/
def step2_form_factory (mixin_cls entry_form_class : FormClass) : FormClass :=
  .factoryForm mixin_cls entry_form_class

/-- Decimal parse of a client-supplied primary-key string: digits only,
anything else is malformed. -/
def pkToNat? (s : String) : Option Nat :=
  if !s.data.isEmpty && s.data.all Char.isDigit then
    some (s.data.foldl (fun n c => 10 * n + (c.toNat - 48)) 0)
  else none

/-- Modelled from the spec: the persistence-layer lookup
`Page.objects.filter(pk=...).first()` — returns the object or "none", never
raises on a missing or malformed primary key. -/
def page_filter_first (pages : List Page) : Option String → Option Page
  | none => none
  | some pkStr =>
    match pkToNat? pkStr with
    | none => none
    | some n => pages.find? (fun p => p.pk = n)

/-- Modelled from the spec: `get_language_from_request(request,
check_path=True)` — derives a language code from the request path/headers. -/
def get_language_from_request (r : Request) : String := r.lang

/-- Modelled from the spec: Django `transaction.atomic()` — the wrapped
computation's store updates are kept on success and rolled back wholesale on
a raised error, which propagates. -/
def atomic {α : Type} (f : DB → Except WizErr (DB × α)) (db : DB) :
    Except WizErr α × DB :=
  match f db with
  | .ok (db2, r) => (.ok r, db2)
  | .error e => (.error e, db)

/-- `WizardCreateView.template_name`. -/
def start_template_name : String := "cms/wizards/start.html"

/-- `WizardCreateView.form_list` as statically declared: step `'0'` maps to
`WizardStep1Form` and step `'1'` to the placeholder `Form`. -/
def initial_form_list : List (String × FormClass) :=
  [("0", .wizardStep1Form), ("1", .placeholderForm)]

/-- `WizardCreateView.get_current_step`: `self.steps.current` if possible,
else `None`. -/
def get_current_step (s : WizardState) : Option String := s.current_step

/-- `WizardCreateView.is_first_step`: `step = step or self.get_current_step();
return step == '0'`. -/
def is_first_step (s : WizardState) (step : Option String) : Bool :=
  pyOrStr step (get_current_step s) = some "0"

/-- `WizardCreateView.is_second_step`: `step = step or
self.get_current_step(); return step == '1'`. -/
def is_second_step (s : WizardState) (step : Option String) : Bool :=
  pyOrStr step (get_current_step s) = some "1"

/-- `WizardCreateView.get_selected_entry`: subscript step `'0'`'s cleaned
data (TypeError if it is `None`, KeyError if `'entry'` is absent), then look
the identifier up in the wizard pool (error if unknown). -/
def get_selected_entry (s : WizardState) : Except WizErr Entry :=
  match s.cleaned0 with
  | none => .error .typeError
  | some data =>
    match data.entry with
    | none => .error .keyError
    | some ident =>
      match s.registry ident with
      | none => .error .unknownEntry
      | some e => .ok e

/-- `WizardCreateView.get_origin_page`: `data.get('page')` on step `'0'`'s
cleaned data (AttributeError if that data is `None`). -/
def get_origin_page (s : WizardState) : Except WizErr (Option Page) :=
  match s.cleaned0 with
  | none => .error .attrError
  | some data => .ok data.page

/-- `WizardCreateView.get_step_2_base_form`: always `WizardStep2BaseForm`. -/
def get_step_2_base_form : FormClass := .wizardStep2BaseForm

/-- `WizardCreateView.get_step_2_form`: fetch the selected entry's form
class and combine it with the step-2 base form via `step2_form_factory`. -/
def get_step_2_form (s : WizardState) : Except WizErr FormClass :=
  match get_selected_entry s with
  | .error e => .error e
  | .ok entry => .ok (step2_form_factory get_step_2_base_form entry.form)

/-- `WizardCreateView.get_form_kwargs` (with the `super()` chain through
`WizardViewMixin.get_form_kwargs`, which contributes `wizard_language`, on
top of the framework's empty base kwargs): adds `wizard_user`, and
`wizard_page` resolved as the origin page for step two, else the page looked
up by `self.page_pk or request.GET.get('page')`. -/
def get_form_kwargs (s : WizardState) (step : Option String) :
    Except WizErr FormKwargs :=
  if is_second_step s step then
    match get_origin_page s with
    | .error e => .error e
    | .ok p =>
      .ok { wizard_language := s.language_code, wizard_user := s.request.user,
            wizard_page := p }
  else
    .ok { wizard_language := s.language_code, wizard_user := s.request.user,
          wizard_page :=
            page_filter_first s.pages (pyOrStr s.page_pk s.request.get_page) }

/-- `WizardCreateView.get_form_initial`: the framework's per-step initial
dict, with `initial['page'] = request.GET.get('page')` added when the step
is the first step. -/
def get_form_initial (s : WizardState) (step : String) :
    List (String × Option String) :=
  let initial := s.base_initial step
  if is_first_step s (some step) then
    setKey initial "page" s.request.get_page
  else
    initial

/-- `WizardCreateView.get_template_names`: the fixed start template on the
first step, else the selected entry's declared template. -/
def get_template_names (s : WizardState) : Except WizErr String :=
  if is_first_step s none then
    .ok start_template_name
  else
    match get_selected_entry s with
    | .error e => .error e
    | .ok entry => .ok entry.template_name

/-- `WizardCreateView.get_context_data`: the framework context, plus
`context['wizard_entry'] = self.get_selected_entry()` when on the second
step. -/
def get_context_data (s : WizardState) :
    Except WizErr (List (String × CtxVal)) :=
  if is_second_step s none then
    match get_selected_entry s with
    | .error e => .error e
    | .ok entry => .ok (setKey s.base_context "wizard_entry" (.entry entry))
  else
    .ok s.base_context

/-- The step-defaulting prologue of `get_form`: `if step is None: step =
self.steps.current` (AttributeError when the wizard has no steps yet). -/
def resolve_step (s : WizardState) : Option String → Except WizErr String
  | some st => .ok st
  | none =>
    match s.current_step with
    | some st => .ok st
    | none => .error .attrError

/-- The `page_pk` assignment of `get_form`: when raw data is (truthily)
present, `self.page_pk = data.get('<step>-page', None)`; otherwise
`self.page_pk = None`. -/
def set_page_pk (s : WizardState) (step : String)
    (data : Option (List (String × String))) : WizardState :=
  if dataTruthy data then
    { s with page_pk := (data.getD []).lookup (page_key step) }
  else
    { s with page_pk := none }

/-- The dynamic-form installation of `get_form`: on the second step,
`self.form_list[step] = self.get_step_2_form(step, data, files)`. -/
def step2_swap (s : WizardState) (step : String) :
    Except WizErr WizardState :=
  if is_second_step s (some step) then
    match get_step_2_form s with
    | .error e => .error e
    | .ok f => .ok { s with form_list := setKey s.form_list step f }
  else
    .ok s

/-- `WizardCreateView.get_form` followed by the framework's base `get_form`:
default the step, record `page_pk` from the raw data, swap in the dynamic
step-2 form when applicable, then instantiate the class found in
`form_list[step]` with the kwargs and initial data of that step.  Returns
the updated controller state together with the bound form. -/
def get_form (s : WizardState) (step? : Option String)
    (data : Option (List (String × String))) :
    Except WizErr (WizardState × BoundForm) :=
  match resolve_step s step? with
  | .error e => .error e
  | .ok step =>
    let s1 := set_page_pk s step data
    match step2_swap s1 step with
    | .error e => .error e
    | .ok s2 =>
      match s2.form_list.lookup step with
      | none => .error .keyError
      | some fc =>
        match get_form_kwargs s2 (some step) with
        | .error e => .error e
        | .ok kw =>
          .ok (s2, { form_class := fc, kwargs := kw,
                     initial := get_form_initial s2 step })

/-- `WizardCreateView.get_success_url`: the selected entry's URL function
applied to the created object and the fixed language code. -/
def get_success_url (s : WizardState) (inst : Obj) :
    Except WizErr String :=
  match get_selected_entry s with
  | .error e => .error e
  | .ok entry => .ok (entry.success_url inst s.language_code)

/-- `WizardCreateView.done`: take `form_list[1]`, save it to materialize
the created object, compute the success URL, and return the terminal
template response whose context holds exactly the `url` variable. -/
def done (s : WizardState) (db : DB) (forms : List FormInstance) :
    Except WizErr (DB × DoneResponse) :=
  match forms[1]? with
  | none => .error .indexError
  | some form_two =>
    match form_two.save db with
    | .error e => .error e
    | .ok (db2, inst) =>
      match get_success_url s inst with
      | .error e => .error e
      | .ok url =>
        .ok (db2, { template := "cms/wizards/done.html",
                    context := [("url", url)] })

/-- `WizardViewMixin.dispatch` on the finalizing request: fix the language
code from the request, run the delegated engine step — here the `done`
finalization — and wrap the whole dispatch in `transaction.atomic()`. -/
def dispatch_done (s : WizardState) (forms : List FormInstance) (db : DB) :
    Except WizErr DoneResponse × DB :=
  atomic
    (fun d =>
      done { s with language_code := get_language_from_request s.request }
        d forms)
    db

/-! Helper lemmas about the helpers and about which state fields the
controller-local mutations touch. -/

theorem lookup_setKey_self {α : Type} (l : List (String × α)) (k : String)
    (v : α) : (setKey l k v).lookup k = some v := by
  induction l with
  | nil => simp [setKey, List.lookup]
  | cons hd tl ih =>
    obtain ⟨k2, v2⟩ := hd
    by_cases h : k2 = k
    · subst h
      simp [setKey, List.lookup]
    · have h2 : (k == k2) = false :=
        beq_eq_false_iff_ne.mpr (fun hk => h hk.symm)
      simp [setKey, h, List.lookup, h2, ih]

theorem pyOrStr_none_left (b : Option String) : pyOrStr none b = b := rfl

theorem pyOrStr_one (b : Option String) : pyOrStr (some "1") b = some "1" :=
  rfl

theorem pyOrStr_zero (b : Option String) : pyOrStr (some "0") b = some "0" :=
  rfl

theorem is_second_step_some_one (s : WizardState) :
    is_second_step s (some "1") = true := by
  unfold is_second_step
  rw [pyOrStr_one]
  decide

theorem is_first_step_some_one (s : WizardState) :
    is_first_step s (some "1") = false := by
  unfold is_first_step
  rw [pyOrStr_one]
  decide

theorem is_first_step_some_zero (s : WizardState) :
    is_first_step s (some "0") = true := by
  unfold is_first_step
  rw [pyOrStr_zero]
  decide

theorem set_page_pk_cleaned0 (s : WizardState) (st : String)
    (data : Option (List (String × String))) :
    (set_page_pk s st data).cleaned0 = s.cleaned0 := by
  unfold set_page_pk
  split <;> rfl

theorem set_page_pk_form_list (s : WizardState) (st : String)
    (data : Option (List (String × String))) :
    (set_page_pk s st data).form_list = s.form_list := by
  unfold set_page_pk
  split <;> rfl

theorem set_page_pk_base_initial (s : WizardState) (st : String)
    (data : Option (List (String × String))) :
    (set_page_pk s st data).base_initial = s.base_initial := by
  unfold set_page_pk
  split <;> rfl

theorem get_selected_entry_set_page_pk (s : WizardState) (st : String)
    (data : Option (List (String × String))) :
    get_selected_entry (set_page_pk s st data) = get_selected_entry s := by
  unfold set_page_pk
  split <;> rfl

theorem get_origin_page_set_page_pk (s : WizardState) (st : String)
    (data : Option (List (String × String))) :
    get_origin_page (set_page_pk s st data) = get_origin_page s := by
  unfold set_page_pk
  split <;> rfl

theorem get_selected_entry_set_form_list (s : WizardState)
    (l : List (String × FormClass)) :
    get_selected_entry { s with form_list := l } = get_selected_entry s := rfl

theorem get_origin_page_set_form_list (s : WizardState)
    (l : List (String × FormClass)) :
    get_origin_page { s with form_list := l } = get_origin_page s := rfl

theorem set_page_pk_language_code (s : WizardState) (st : String)
    (data : Option (List (String × String))) :
    (set_page_pk s st data).language_code = s.language_code := by
  unfold set_page_pk
  split <;> rfl

theorem set_page_pk_request (s : WizardState) (st : String)
    (data : Option (List (String × String))) :
    (set_page_pk s st data).request = s.request := by
  unfold set_page_pk
  split <;> rfl

/-- Shared evaluation lemma: resolving the form for step `'1'` propagates
any error of `get_selected_entry` (no fallback happens on the way). -/
theorem get_form_step2_error (s : WizardState)
    (data : Option (List (String × String))) (er : WizErr)
    (he : get_selected_entry s = .error er) :
    get_form s (some "1") data = .error er := by
  simp [get_form, resolve_step, step2_swap, is_second_step_some_one,
    get_step_2_form, get_selected_entry_set_page_pk, he]

/-- Shared evaluation lemma: when step one's cleaned data selects a
registered entry, resolving the form for step `'1'` installs the factory
product of the base form and the entry's form and instantiates it with the
user/language/origin-page kwargs. -/
theorem get_form_step2_ok (s : WizardState)
    (data : Option (List (String × String))) (d : CleanedData) (e : Entry)
    (hc : s.cleaned0 = some d) (he : get_selected_entry s = .ok e) :
    get_form s (some "1") data =
      .ok ({ set_page_pk s "1" data with
             form_list := setKey s.form_list "1"
               (step2_form_factory get_step_2_base_form e.form) },
           { form_class := step2_form_factory get_step_2_base_form e.form,
             kwargs := { wizard_language := s.language_code,
                         wizard_user := s.request.user,
                         wizard_page := d.page },
             initial := s.base_initial "1" }) := by
  simp [get_form, resolve_step, step2_swap, is_second_step_some_one,
    get_step_2_form, get_selected_entry_set_page_pk, he, lookup_setKey_self,
    get_form_kwargs, get_origin_page, set_page_pk_cleaned0, hc,
    get_form_initial, is_first_step_some_one, set_page_pk_form_list,
    set_page_pk_base_initial, set_page_pk_language_code, set_page_pk_request]

/-! Concrete fixtures used to evaluate the development on closed inputs. -/

/-- A sample registered entry. -/
def exEntry : Entry :=
  { form := .entryForm "cms.page"
    template_name := "cms/wizards/page.html"
    success_url := fun obj lang => "/" ++ lang ++ "/page/" ++ toString obj }

/-- A sample registry knowing the single identifier `"page"`. -/
def exRegistry : String → Option Entry :=
  fun ident => if ident = "page" then some exEntry else none

/-- A sample request with a `page=42` hint. -/
def exRequest : Request :=
  { get_page := some "42", user := "alice", lang := "en" }

/-- Sample valid cleaned data of step one. -/
def exCleaned : CleanedData :=
  { entry := some "page", page := some { pk := 7 } }

/-- A state on step `'1'` with valid step-one data. -/
def exStateOk : WizardState :=
  { request := exRequest
    pages := [{ pk := 7 }, { pk := 42 }]
    registry := exRegistry
    current_step := some "1"
    cleaned0 := some exCleaned
    form_list := initial_form_list
    page_pk := none
    language_code := "en"
    base_initial := fun _ => []
    base_context := [("wizard", .str "w")] }

/-- Same state but with step one's cleaned data absent. -/
def exStateNoClean : WizardState :=
  { exStateOk with cleaned0 := none }

/-- Same state but with cleaned data lacking both dictionary keys. -/
def exStateNoKeys : WizardState :=
  { exStateOk with cleaned0 := some { entry := none, page := none } }

/-- A state on step `'0'` carrying a non-existent submitted page pk. -/
def exStateStepOne : WizardState :=
  { exStateOk with current_step := some "0", page_pk := some "99" }

/-- The synthesized step-two class for `exEntry`. -/
def exStep2Class : FormClass :=
  .factoryForm .wizardStep2BaseForm (.entryForm "cms.page")

/-- The state `get_form` produces from `exStateOk` on step `'1'`. -/
def exS2 : WizardState :=
  { exStateOk with form_list := [("0", .wizardStep1Form), ("1", exStep2Class)] }

/-- The bound form `get_form` produces from `exStateOk` on step `'1'`. -/
def exBF : BoundForm :=
  { form_class := exStep2Class
    kwargs := { wizard_language := "en", wizard_user := "alice",
                wizard_page := some { pk := 7 } }
    initial := [] }

/-- A step-one form instance whose save is a no-op. -/
def exForm0 : FormInstance := { save := fun db => .ok (db, 0) }

/-- A step-two form instance persisting object `5`. -/
def exForm1 : FormInstance := { save := fun db => .ok (db ++ [5], 5) }

/-- A step-two form instance whose save raises a persistence failure. -/
def exFormFail : FormInstance := { save := fun _ => .error .saveError }

/-- C1: whenever resolving the form for step `'1'` succeeds, the bound class
is the one synthesized by `step2_form_factory` from the step-two base mixin
and the form class of the entry selected in step one's cleaned data, that
synthesized class is installed in `form_list` as the active form for step
`'1'`, and it is never one of the statically pre-registered classes. -/
theorem step_two_form_is_synthesized (s : WizardState)
    (data : Option (List (String × String))) (s2 : WizardState)
    (bf : BoundForm) (h : get_form s (some "1") data = .ok (s2, bf)) :
    ∃ e, get_selected_entry s = .ok e ∧
      bf.form_class = step2_form_factory get_step_2_base_form e.form ∧
      s2.form_list.lookup "1" = some bf.form_class ∧
      bf.form_class ≠ .placeholderForm ∧
      bf.form_class ≠ .wizardStep1Form := by
  cases he : get_selected_entry s with
  | error er =>
    rw [get_form_step2_error s data er he] at h
    exact Except.noConfusion h
  | ok e =>
    have hcl : ∃ d, s.cleaned0 = some d := by
      unfold get_selected_entry at he
      cases hcc : s.cleaned0 with
      | none =>
        rw [hcc] at he
        exact Except.noConfusion he
      | some d => exact ⟨d, rfl⟩
    obtain ⟨d, hd⟩ := hcl
    rw [get_form_step2_ok s data d e hd he] at h
    injection h with h
    injection h with hs hbf
    subst hs
    subst hbf
    refine ⟨e, rfl, rfl, ?_, ?_, ?_⟩
    · exact lookup_setKey_self s.form_list "1" _
    · simp [step2_form_factory]
    · simp [step2_form_factory]

/-- Witness for C1 on a concrete state with valid step-one data. -/
theorem step_two_form_is_synthesized_witness :
    ∃ e, get_selected_entry exStateOk = .ok e ∧
      exBF.form_class = step2_form_factory get_step_2_base_form e.form ∧
      exS2.form_list.lookup "1" = some exBF.form_class ∧
      exBF.form_class ≠ .placeholderForm ∧
      exBF.form_class ≠ .wizardStep1Form :=
  step_two_form_is_synthesized exStateOk none exS2 exBF rfl

/-- C2 counterexample: on a concrete request whose step-one cleaned data is
absent, resolving the form for step `'1'` does not fall back to the
placeholder form — it does not produce any form at all, but raises
(TypeError from subscripting `None`). -/
theorem step_two_placeholder_fallback_cex :
    get_form exStateNoClean (some "1") none = .error .typeError ∧
      ¬ ∃ s2 bf, get_form exStateNoClean (some "1") none = .ok (s2, bf) := by
  constructor
  · rfl
  · rintro ⟨s2, bf, h⟩
    rw [show get_form exStateNoClean (some "1") none = .error .typeError
          from rfl] at h
    exact Except.noConfusion h

/-- C2 amended: when step one's cleaned data is absent or has no `'entry'`
key, resolving the form for step `'1'` raises an error — it never resolves
to a real entry-specific class — while the statically registered class for
step `'1'` remains the placeholder form that accepts nothing. -/
theorem step_two_resolution_fails_without_step_one (s : WizardState)
    (data : Option (List (String × String)))
    (h : s.cleaned0 = none ∨ ∃ d, s.cleaned0 = some d ∧ d.entry = none) :
    (∃ er, get_form s (some "1") data = .error er) ∧
      initial_form_list.lookup "1" = some .placeholderForm := by
  constructor
  · rcases h with h | ⟨d, hd, hde⟩
    · exact ⟨.typeError, get_form_step2_error s data .typeError
        (by simp [get_selected_entry, h])⟩
    · exact ⟨.keyError, get_form_step2_error s data .keyError
        (by simp [get_selected_entry, hd, hde])⟩
  · rfl

/-- Witness for the amended C2 on a concrete state with absent data. -/
theorem step_two_resolution_fails_without_step_one_witness :
    (∃ er, get_form exStateNoClean (some "1") none = .error er) ∧
      initial_form_list.lookup "1" = some .placeholderForm :=
  step_two_resolution_fails_without_step_one exStateNoClean none (Or.inl rfl)

/-- C3: when all steps validated, `done` saves the form at index 1 of the
form list, computes the success URL by the selected entry's URL function on
the created object and the fixed language code, and returns the terminal
response whose context holds exactly the one variable `url`. -/
theorem done_renders_url_of_saved_object (s : WizardState) (db db2 : DB)
    (forms : List FormInstance) (f : FormInstance) (inst : Obj) (e : Entry)
    (hf : forms[1]? = some f) (hsave : f.save db = .ok (db2, inst))
    (he : get_selected_entry s = .ok e) :
    done s db forms =
      .ok (db2, { template := "cms/wizards/done.html",
                  context := [("url", e.success_url inst s.language_code)] })
    := by
  simp [done, hf, hsave, get_success_url, he]

/-- Witness for C3 on a concrete two-form list. -/
theorem done_renders_url_of_saved_object_witness :
    done exStateOk [] [exForm0, exForm1] =
      .ok ([5], { template := "cms/wizards/done.html",
                  context := [("url", "/en/page/5")] }) :=
  done_renders_url_of_saved_object exStateOk [] [5] [exForm0, exForm1]
    exForm1 5 exEntry rfl rfl rfl

/-- C4: the dispatch runs inside one atomic transaction — when the save of
the finalization fails, the error propagates (no done response) and the
store is rolled back to its pre-dispatch contents, so no created object is
observably persisted. -/
theorem dispatch_rolls_back_failed_finalization (s : WizardState)
    (forms : List FormInstance) (f : FormInstance) (db : DB) (er : WizErr)
    (hf : forms[1]? = some f) (hsave : f.save db = .error er) :
    dispatch_done s forms db = (.error er, db) := by
  simp [dispatch_done, atomic, done, hf, hsave]

/-- Witness for C4 with a concretely failing save. -/
theorem dispatch_rolls_back_failed_finalization_witness :
    dispatch_done exStateOk [exForm0, exFormFail] [3] =
      (.error .saveError, [3]) :=
  dispatch_rolls_back_failed_finalization exStateOk [exForm0, exFormFail]
    exFormFail [3] .saveError rfl rfl

/-- C5: on any step other than the second, a client-supplied container pk
(from the step-scoped submitted field or the `page` query hint) that is
malformed or matches no existing page makes `get_form_kwargs` resolve the
container to `none` silently — the kwargs are still produced, no error. -/
theorem invalid_page_pk_resolves_to_none (s : WizardState)
    (step : Option String) (hstep : is_second_step s step = false)
    (h : ∀ pkStr n, pyOrStr s.page_pk s.request.get_page = some pkStr →
      pkToNat? pkStr = some n → ∀ p ∈ s.pages, p.pk ≠ n) :
    get_form_kwargs s step =
      .ok { wizard_language := s.language_code,
            wizard_user := s.request.user, wizard_page := none } := by
  have hp : page_filter_first s.pages
      (pyOrStr s.page_pk s.request.get_page) = none := by
    cases hpk : pyOrStr s.page_pk s.request.get_page with
    | none => rfl
    | some pkStr =>
      simp only [page_filter_first]
      cases hn : pkToNat? pkStr with
      | none => rfl
      | some n =>
        apply List.find?_eq_none.mpr
        intro p hpmem
        have := h pkStr n hpk hn p hpmem
        simpa using this
  simp [get_form_kwargs, hstep, hp]

/-- Witness for C5 on a concrete state with a pk matching no page. -/
theorem invalid_page_pk_resolves_to_none_witness :
    get_form_kwargs exStateStepOne none =
      .ok { wizard_language := "en", wizard_user := "alice",
            wizard_page := none } :=
  invalid_page_pk_resolves_to_none exStateStepOne none rfl
    (by
      intro pkStr n h1 h2 p hp
      have h1b : Option.some "99" = some pkStr := h1
      injection h1b with h1c
      subst h1c
      rw [show pkToNat? "99" = some 99 from by decide] at h2
      injection h2 with h2b
      subst h2b
      have hp2 : p = { pk := 7 } ∨ p = { pk := 42 } := by
        simpa [exStateStepOne, exStateOk] using hp
      rcases hp2 with h | h <;> subst h <;> decide)

/-- C6: every step's form kwargs carry the acting user and the fixed
language code, plus the container: the origin page of step one's cleaned
data on the second step, otherwise the page looked up from the submitted
`page_pk` or, failing that, the `page` query hint. -/
theorem form_kwargs_contract (s : WizardState) (step : Option String)
    (d : CleanedData) (hc : s.cleaned0 = some d) :
    get_form_kwargs s step =
      .ok { wizard_language := s.language_code,
            wizard_user := s.request.user,
            wizard_page :=
              if is_second_step s step then d.page
              else page_filter_first s.pages
                (pyOrStr s.page_pk s.request.get_page) } := by
  by_cases h : is_second_step s step = true
  · simp [get_form_kwargs, h, get_origin_page, hc]
  · simp [get_form_kwargs, h, get_origin_page, hc]

/-- Witness for C6 on the second step of a concrete state. -/
theorem form_kwargs_contract_witness :
    get_form_kwargs exStateOk (some "1") =
      .ok { wizard_language := "en", wizard_user := "alice",
            wizard_page := some { pk := 7 } } := by
  have h := form_kwargs_contract exStateOk (some "1") exCleaned rfl
  simpa [is_second_step_some_one] using h

/-- C7: template-name resolution yields the fixed start template exactly
when the current step is `'0'`, and for every other current step (also when
none exists) the template declared by the selected entry — presupposing
step one's cleaned data resolves to an entry. -/
theorem template_name_resolution (s : WizardState) (e : Entry)
    (he : get_selected_entry s = .ok e) :
    get_template_names s =
      (if s.current_step = some "0" then .ok start_template_name
       else .ok e.template_name) := by
  by_cases h : s.current_step = some "0"
  · simp [get_template_names, is_first_step, pyOrStr_none_left,
      get_current_step, h]
  · simp [get_template_names, is_first_step, pyOrStr_none_left,
      get_current_step, h, he]

/-- Witness for C7 on a concrete step-`'1'` state. -/
theorem template_name_resolution_witness :
    get_template_names exStateOk = .ok "cms/wizards/page.html" := by
  have h := template_name_resolution exStateOk exEntry rfl
  simpa [exStateOk] using h

/-- C8: with a `page=X` query hint, the initial data computed for step
`'0'` maps the `page` field to `X`; the initial data of step `'1'` is the
framework's own, not augmented with the hint. -/
theorem step_one_initial_page_hint (s : WizardState) (x : String)
    (hx : s.request.get_page = some x) :
    (get_form_initial s "0").lookup "page" = some (some x) ∧
      get_form_initial s "1" = s.base_initial "1" := by
  constructor
  · simp [get_form_initial, is_first_step_some_zero, hx, lookup_setKey_self]
  · simp [get_form_initial, is_first_step_some_one]

/-- Witness for C8 on a concrete request with `page=42`. -/
theorem step_one_initial_page_hint_witness :
    (get_form_initial exStateOk "0").lookup "page" = some (some "42") ∧
      get_form_initial exStateOk "1" = [] :=
  step_one_initial_page_hint exStateOk "42" rfl

/-- C9: on any present step-one cleaned-data mapping, `get_origin_page`
returns the `page` value when present and `none` when the field is absent,
never raising — while `get_selected_entry` raises a KeyError when the
`'entry'` key is absent from the same mapping. -/
theorem origin_page_tolerates_missing_field (s : WizardState)
    (d : CleanedData) (hd : s.cleaned0 = some d) :
    get_origin_page s = .ok d.page ∧
      (d.entry = none → get_selected_entry s = .error .keyError) := by
  constructor
  · simp [get_origin_page, hd]
  · intro he
    simp [get_selected_entry, hd, he]

/-- Witness for C9 on cleaned data with both fields absent. -/
theorem origin_page_tolerates_missing_field_witness :
    get_origin_page exStateNoKeys = .ok none ∧
      get_selected_entry exStateNoKeys = .error .keyError := by
  have h := origin_page_tolerates_missing_field exStateNoKeys
    { entry := none, page := none } rfl
  exact ⟨h.1, h.2 rfl⟩

/-- C10: `get_context_data` returns the base context augmented with exactly
the one key `wizard_entry` (bound to the re-derived selected entry) when
the current step is `'1'`, and the base context unchanged for any other
current step. -/
theorem context_data_wizard_entry_only_step_two (s : WizardState) (e : Entry)
    (he : get_selected_entry s = .ok e) :
    get_context_data s =
      .ok (if s.current_step = some "1"
           then setKey s.base_context "wizard_entry" (.entry e)
           else s.base_context) := by
  by_cases h : s.current_step = some "1"
  · simp [get_context_data, is_second_step, pyOrStr_none_left,
      get_current_step, h, he]
  · simp [get_context_data, is_second_step, pyOrStr_none_left,
      get_current_step, h, he]

/-- Witness for C10 on a concrete step-`'1'` state. -/
theorem context_data_wizard_entry_only_step_two_witness :
    get_context_data exStateOk =
      .ok [("wizard", .str "w"), ("wizard_entry", .entry exEntry)] := by
  have h := context_data_wizard_entry_only_step_two exStateOk exEntry rfl
  simpa [exStateOk, setKey] using h

end CMSWizards
